import Mathlib

/-!
Ant foraging simulation: the tick function `updateAnts` of `src/main.cpp`.

The development embeds the simulation core of `src/main.cpp` (the `Ant` record, the two
pheromone grids, `samplePheromone`, and `updateAnts`) and states the properties of the
specification over that embedding.

Modelling conventions.

* `float` values are elements of an arbitrary linearly ordered field `K` with a floor
  function (`ℚ` for evaluation, `ℝ` for the mathematical reading).  Rounding, infinities
  and NaN are outside the model; the literal `0.1f` is the exact number `1/10`.
* The C library functions `cos`, `sin`, `atan2` and the square root inside `glm::length`
  are not part of the repository; they are taken as a parameter `MathLib K`.
* The conversion `(int) f` truncates towards zero (`floatToInt`); the result is an unbounded
  `Int`, so conversions that would leave the range of `int` are outside the model.
* The static generator `rng` with the two distributions `randAngle` and `randTurn` is
  replaced by the values the two distributions would return for the agent being processed
  (`Draw`); an agent uses at most one of them.
* The file-scope tunables (`MAX_SPEED`, ...) and the two points of interest are collected
  in `Globals`.  The rendering arrays `particlePositions` / `particleColors` are omitted.
-/

namespace AntSim

/-- Two-component vector, `glm::vec2`. -/
structure Vec2 (K : Type) where
  x : K
  y : K

/-- Record `struct Ant` (main.cpp lines 33-37). -/
structure Ant (K : Type) where
  pos : Vec2 K
  vel : Vec2 K
  carryingFood : Bool

/-- Constant `const int GRID_SIZE = 128` (main.cpp line 27). -/
abbrev GRID_SIZE : Nat := 128

/-- Square array `float g[n][n]`, indexed `g[x][y]`. -/
abbrev Grid (n : Nat) (K : Type) := Fin n → Fin n → K

/-- The two global pheromone arrays (main.cpp lines 28-29). -/
structure Fields (K : Type) where
  pheromoneToFood : Grid GRID_SIZE K
  pheromoneToHome : Grid GRID_SIZE K

/-- File-scope tunables and points of interest (main.cpp lines 30-31, 43-50). -/
structure Globals (K : Type) where
  MAX_SPEED : K
  SENSE_DISTANCE : K
  SENSE_ANGLE : K
  DETECTION_RADIUS : K
  WANDER_STRENGTH : K
  PHEROMONE_DECAY : K
  PHEROMONE_DEPOSIT : K
  homePos : Vec2 K
  foodPos : Vec2 K

/-- The library functions used by `updateAnts`: `cos`, `sin`, `atan2 y x`, and the square
root used by `glm::length`. -/
structure MathLib (K : Type) where
  cos : K → K
  sin : K → K
  atan2 : K → K → K
  sqrt : K → K

/-- The values `randAngle(rng)` (range `[-0.5, 0.5)`) and `randTurn(rng)` (range `[-1, 1)`)
would return while one agent is processed (main.cpp lines 114-116). -/
structure Draw (K : Type) where
  randAngle : K
  randTurn : K

/-- Simulation state touched by `updateAnts`: the vector `ants` and both grids. -/
structure World (K : Type) where
  ants : List (Ant K)
  fields : Fields K

section Model

variable {K : Type} [LinearOrderedField K] [FloorRing K]

/-- Ranges of the two distributions declared at main.cpp lines 115-116. -/
def Draw.inRange (d : Draw K) : Prop :=
  -(1 / 2) ≤ d.randAngle ∧ d.randAngle < 1 / 2 ∧ -1 ≤ d.randTurn ∧ d.randTurn < 1

/-- Vector sum `a + b`. -/
def Vec2.add (a b : Vec2 K) : Vec2 K := ⟨a.x + b.x, a.y + b.y⟩

/-- Vector difference `a - b`. -/
def Vec2.sub (a b : Vec2 K) : Vec2 K := ⟨a.x - b.x, a.y - b.y⟩

/-- Vector negation `-a`. -/
def Vec2.neg (a : Vec2 K) : Vec2 K := ⟨-a.x, -a.y⟩

/-- Vector times scalar `a * s`. -/
def Vec2.scale (a : Vec2 K) (s : K) : Vec2 K := ⟨a.x * s, a.y * s⟩

/-- Euclidean norm `glm::length(v) = sqrt(dot(v, v))`. -/
def Vec2.length (M : MathLib K) (v : Vec2 K) : K := M.sqrt (v.x * v.x + v.y * v.y)

/-- Conversion `(int) v` of a float: truncation towards zero. -/
def floatToInt (v : K) : Int := if 0 ≤ v then Int.floor v else Int.ceil v

/-- Grid coordinate `(int)((v + 20.0f) / 40.0f * GRID_SIZE)` for a grid of side `n`
(main.cpp lines 100-101, 142-143, 172-173). -/
def gridCoord (n : Nat) (v : K) : Int := floatToInt ((v + 20) / 40 * (n : K))

/-- Bounds test `gridX >= 0 && gridX < GRID_SIZE && gridY >= 0 && gridY < GRID_SIZE`
(main.cpp lines 103, 145, 175): the array index when the test passes. -/
def cellAt (n : Nat) (gridX gridY : Int) : Option (Fin n × Fin n) :=
  if h : 0 ≤ gridX ∧ gridX < (n : Int) ∧ 0 ≤ gridY ∧ gridY < (n : Int) then
    some (⟨gridX.toNat, by omega⟩, ⟨gridY.toNat, by omega⟩)
  else none

/-- Grid cell of a world position, when the bounds test passes. -/
def cellOfPos (n : Nat) (p : Vec2 K) : Option (Fin n × Fin n) :=
  cellAt n (gridCoord n p.x) (gridCoord n p.y)

/-- Free function `samplePheromone` (main.cpp lines 97-110); the grid side and the sense
distance are its parameters. -/
def samplePheromone (n : Nat) (direction : Vec2 K) (ant : Ant K)
    (pheromoneToFood pheromoneToHome : Grid n K) (SENSE_DISTANCE : K) : K :=
  let samplePos := ant.pos.add (direction.scale SENSE_DISTANCE)
  match cellAt n (gridCoord n samplePos.x) (gridCoord n samplePos.y) with
  | none => 0
  | some c => if ant.carryingFood then pheromoneToHome c.1 c.2 else pheromoneToFood c.1 c.2

/-- The lambda `samplePheromone` inside `updateAnts` (main.cpp lines 140-149). -/
def sampleLambda (P : Globals K) (F : Fields K) (ant : Ant K) (dir : Vec2 K) : K :=
  let samplePos := ant.pos.add (dir.scale P.SENSE_DISTANCE)
  match cellAt GRID_SIZE (gridCoord GRID_SIZE samplePos.x) (gridCoord GRID_SIZE samplePos.y) with
  | some c => if ant.carryingFood then F.pheromoneToHome c.1 c.2 else F.pheromoneToFood c.1 c.2
  | none => 0

/-- Proximity test and state flip (main.cpp lines 121-133). -/
def proximityToggle (P : Globals K) (M : MathLib K) (ant : Ant K) : Ant K :=
  let distToFood := (P.foodPos.sub ant.pos).length M
  let distToHome := (P.homePos.sub ant.pos).length M
  if ant.carryingFood = false ∧ distToFood < P.DETECTION_RADIUS then
    { ant with carryingFood := true, vel := ant.vel.neg }
  else if ant.carryingFood = true ∧ distToHome < P.DETECTION_RADIUS then
    { ant with carryingFood := false, vel := ant.vel.neg }
  else ant

/-- The turn decision (main.cpp lines 155-167). -/
def turnAngle (P : Globals K) (d : Draw K) (leftPheromone forwardPheromone rightPheromone : K) :
    K :=
  if forwardPheromone > leftPheromone ∧ forwardPheromone > rightPheromone then
    d.randAngle * P.WANDER_STRENGTH
  else if leftPheromone > rightPheromone then
    P.SENSE_ANGLE + d.randAngle * P.WANDER_STRENGTH
  else if rightPheromone > leftPheromone then
    -P.SENSE_ANGLE + d.randAngle * P.WANDER_STRENGTH
  else
    d.randTurn * (1 / 10)

/-- Sensing, turn decision and the new velocity (main.cpp lines 135-170), for an agent
that has already passed the proximity test. -/
def steer (P : Globals K) (M : MathLib K) (d : Draw K) (F : Fields K) (ant : Ant K) : Vec2 K :=
  let currentAngle := M.atan2 ant.vel.y ant.vel.x
  let forward : Vec2 K := ⟨M.cos currentAngle, M.sin currentAngle⟩
  let left : Vec2 K := ⟨M.cos (currentAngle + P.SENSE_ANGLE), M.sin (currentAngle + P.SENSE_ANGLE)⟩
  let right : Vec2 K := ⟨M.cos (currentAngle - P.SENSE_ANGLE), M.sin (currentAngle - P.SENSE_ANGLE)⟩
  let leftPheromone := sampleLambda P F ant left
  let forwardPheromone := sampleLambda P F ant forward
  let rightPheromone := sampleLambda P F ant right
  let currentAngle2 := currentAngle + turnAngle P d leftPheromone forwardPheromone rightPheromone
  ⟨M.cos currentAngle2, M.sin currentAngle2⟩

/-- Update `g[c.1][c.2] += amount`. -/
def Grid.addAt {n : Nat} (g : Grid n K) (c : Fin n × Fin n) (amount : K) : Grid n K :=
  fun x y => if x = c.1 ∧ y = c.2 then g x y + amount else g x y

/-- The deposit (main.cpp lines 172-182) of an agent that has passed the proximity test. -/
def deposit (P : Globals K) (dt : K) (F : Fields K) (ant : Ant K) : Fields K :=
  match cellOfPos GRID_SIZE ant.pos with
  | some c =>
    if ant.carryingFood then
      { F with pheromoneToFood := F.pheromoneToFood.addAt c (P.PHEROMONE_DEPOSIT * dt) }
    else
      { F with pheromoneToHome := F.pheromoneToHome.addAt c (P.PHEROMONE_DEPOSIT * dt) }
  | none => F

/-- The four boundary tests, in source order (main.cpp lines 185-204). -/
def reflect (ant : Ant K) : Ant K :=
  let a1 : Ant K := if ant.pos.x < -20 then
    { ant with pos := ⟨-20, ant.pos.y⟩, vel := ⟨ant.vel.x * -1, ant.vel.y⟩ } else ant
  let a2 : Ant K := if a1.pos.x > 20 then
    { a1 with pos := ⟨20, a1.pos.y⟩, vel := ⟨a1.vel.x * -1, a1.vel.y⟩ } else a1
  let a3 : Ant K := if a2.pos.y < -20 then
    { a2 with pos := ⟨a2.pos.x, -20⟩, vel := ⟨a2.vel.x, a2.vel.y * -1⟩ } else a2
  if a3.pos.y > 20 then
    { a3 with pos := ⟨a3.pos.x, 20⟩, vel := ⟨a3.vel.x, a3.vel.y * -1⟩ } else a3

/-- Movement `ant.pos += ant.vel * dt * MAX_SPEED` (main.cpp line 183). -/
def move (P : Globals K) (dt : K) (ant : Ant K) : Ant K :=
  { ant with pos := ant.pos.add ((ant.vel.scale dt).scale P.MAX_SPEED) }

/-- Body of the loop over the agents (main.cpp lines 120-204) for one agent: the updated
agent and the updated grids. -/
def stepAnt (P : Globals K) (M : MathLib K) (dt : K) (d : Draw K) (F : Fields K) (ant0 : Ant K) :
    Ant K × Fields K :=
  let ant := proximityToggle P M ant0
  let ant1 : Ant K := { ant with vel := steer P M d F ant }
  let F1 := deposit P dt F ant1
  (reflect (move P dt ant1), F1)

/-- The loop `for (int i = 0; i < ants.size(); i++)` from index `i` on; agent `i` uses
`draws i`. -/
def antLoop (P : Globals K) (M : MathLib K) (dt : K) (draws : Nat → Draw K) :
    Nat → List (Ant K) → Fields K → List (Ant K) × Fields K
  | _, [], F => ([], F)
  | i, ant :: rest, F =>
    let r := stepAnt P M dt (draws i) F ant
    let rs := antLoop P M dt draws (i + 1) rest r.2
    (r.1 :: rs.1, rs.2)

/-- The decay sweep (main.cpp lines 210-215). -/
def decay (P : Globals K) (F : Fields K) : Fields K :=
  { pheromoneToFood := fun x y => F.pheromoneToFood x y * P.PHEROMONE_DECAY
    pheromoneToHome := fun x y => F.pheromoneToHome x y * P.PHEROMONE_DECAY }

/-- Function `updateAnts(dt)` (main.cpp lines 112-237). -/
def updateAnts (P : Globals K) (M : MathLib K) (dt : K) (draws : Nat → Draw K) (W : World K) :
    World K :=
  let r := antLoop P M dt draws 0 W.ants W.fields
  { ants := r.1, fields := decay P r.2 }

/-- One frame of the host loop: the tunables in force, the step and the random draws. -/
structure Tick (K : Type) where
  globals : Globals K
  dt : K
  draws : Nat → Draw K

/-- Successive calls `updateAnts(simDeltaTime)` of the host loop, one per list element. -/
def runTicks (M : MathLib K) : List (Tick K) → World K → World K
  | [], W => W
  | t :: ts, W => runTicks M ts (updateAnts t.globals M t.dt t.draws W)

/-- The zero-initialised grids `= { 0.0f }` (main.cpp lines 28-29). -/
def zeroFields : Fields K :=
  { pheromoneToFood := fun _ _ => 0, pheromoneToHome := fun _ _ => 0 }

/-- Agent `a` deposits into cell `c` of the grid selected by `food` (`true`: the to-food
grid, `false`: the to-home grid): its position passes the bounds test at `c` and its flag
after the proximity test equals `food` (main.cpp lines 124-133 and 172-182). -/
def depositsInto (P : Globals K) (M : MathLib K) (food : Bool) (c : Fin GRID_SIZE × Fin GRID_SIZE)
    (a : Ant K) : Bool :=
  decide (cellOfPos GRID_SIZE a.pos = some c) && ((proximityToggle P M a).carryingFood == food)

/-- The tunables set by `initAnts` (main.cpp lines 80-86) with the two points of interest
(main.cpp lines 43-44). -/
def defaultGlobals : Globals K :=
  { MAX_SPEED := 2 / 5, SENSE_DISTANCE := 5 / 2, SENSE_ANGLE := 1 / 2, DETECTION_RADIUS := 5 / 2,
    WANDER_STRENGTH := 2 / 25, PHEROMONE_DECAY := 199 / 200, PHEROMONE_DEPOSIT := 10,
    homePos := ⟨-10, 0⟩, foodPos := ⟨10, 10⟩ }

/-- Grid coordinate as the specification words it: `floor((v + L) / (2L) * GRID_SIZE)` with
`L = 20`. -/
def specCoord (n : Nat) (v : K) : Int := Int.floor ((v + 20) / (2 * 20) * (n : K))

/-- Both grids hold only non-negative values. -/
def Fields.nonneg (F : Fields K) : Prop :=
  ∀ x y, 0 ≤ F.pheromoneToFood x y ∧ 0 ≤ F.pheromoneToHome x y

/-- The assumptions of the non-negativity property on one frame: deposit rate ≥ 0,
`dt > 0`, and decay factor strictly between 0 and 1. -/
def Tick.admissible (t : Tick K) : Prop :=
  0 ≤ t.globals.PHEROMONE_DEPOSIT ∧ 0 < t.dt ∧
    0 < t.globals.PHEROMONE_DECAY ∧ t.globals.PHEROMONE_DECAY < 1

end Model

/-! ## Auxiliary facts -/

section Lemmas

variable {K : Type} [LinearOrderedField K]

theorem proximityToggle_pos (P : Globals K) (M : MathLib K) (a : Ant K) :
    (proximityToggle P M a).pos = a.pos := by
  unfold proximityToggle
  dsimp only
  split_ifs <;> rfl

theorem reflect_carryingFood (a : Ant K) : (reflect a).carryingFood = a.carryingFood := by
  unfold reflect
  dsimp only
  split_ifs <;> rfl

theorem reflect_bounds (a : Ant K) :
    -20 ≤ (reflect a).pos.x ∧ (reflect a).pos.x ≤ 20 ∧
      -20 ≤ (reflect a).pos.y ∧ (reflect a).pos.y ≤ 20 := by
  unfold reflect
  dsimp only
  split_ifs <;> (try dsimp only at *) <;>
    (refine ⟨?_, ?_, ?_, ?_⟩ <;> linarith)

theorem proximityToggle_eq_self (P : Globals K) (M : MathLib K) (a : Ant K)
    (h1 : ¬ (a.carryingFood = false ∧ (P.foodPos.sub a.pos).length M < P.DETECTION_RADIUS))
    (h2 : ¬ (a.carryingFood = true ∧ (P.homePos.sub a.pos).length M < P.DETECTION_RADIUS)) :
    proximityToggle P M a = a := by
  simp only [proximityToggle, if_neg h1, if_neg h2]

theorem reflect_vel_sq (a : Ant K) :
    (reflect a).vel.x ^ 2 + (reflect a).vel.y ^ 2 = a.vel.x ^ 2 + a.vel.y ^ 2 := by
  unfold reflect
  dsimp only
  split_ifs <;> ring

variable [FloorRing K]

theorem gridCoord_eq_specCoord (n : Nat) (v : K) (h : -20 ≤ v) :
    gridCoord n v = specCoord n v := by
  have h0 : (0 : K) ≤ (v + 20) / 40 * (n : K) := by
    have : (0 : K) ≤ v + 20 := by linarith
    positivity
  have h1 : (v + 20) / (2 * 20) * (n : K) = (v + 20) / 40 * (n : K) := by norm_num
  rw [gridCoord, specCoord, floatToInt, if_pos h0, h1]

theorem stepAnt_carryingFood (P : Globals K) (M : MathLib K) (dt : K) (d : Draw K)
    (F : Fields K) (a : Ant K) :
    (stepAnt P M dt d F a).1.carryingFood = (proximityToggle P M a).carryingFood := by
  simp [stepAnt, reflect_carryingFood, move]

theorem stepAnt_toFood (P : Globals K) (M : MathLib K) (dt : K) (d : Draw K)
    (F : Fields K) (a : Ant K) (x y : Fin GRID_SIZE) :
    (stepAnt P M dt d F a).2.pheromoneToFood x y =
      F.pheromoneToFood x y +
        (if depositsInto P M true (x, y) a = true then P.PHEROMONE_DEPOSIT * dt else 0) := by
  simp only [stepAnt, deposit, depositsInto, proximityToggle_pos]
  split
  · rename_i c hc
    obtain ⟨c1, c2⟩ := c
    by_cases hf : (proximityToggle P M a).carryingFood = true
    · by_cases hxy : x = c1 ∧ y = c2 <;> simp [Grid.addAt, hc, hf, Prod.ext_iff, eq_comm, hxy]
    · by_cases hxy : x = c1 ∧ y = c2 <;> simp [Grid.addAt, hc, hf, Prod.ext_iff, eq_comm, hxy]
  · rename_i hc
    simp [hc]

theorem stepAnt_toHome (P : Globals K) (M : MathLib K) (dt : K) (d : Draw K)
    (F : Fields K) (a : Ant K) (x y : Fin GRID_SIZE) :
    (stepAnt P M dt d F a).2.pheromoneToHome x y =
      F.pheromoneToHome x y +
        (if depositsInto P M false (x, y) a = true then P.PHEROMONE_DEPOSIT * dt else 0) := by
  simp only [stepAnt, deposit, depositsInto, proximityToggle_pos]
  split
  · rename_i c hc
    obtain ⟨c1, c2⟩ := c
    by_cases hf : (proximityToggle P M a).carryingFood = true
    · by_cases hxy : x = c1 ∧ y = c2 <;> simp [Grid.addAt, hc, hf, Prod.ext_iff, eq_comm, hxy]
    · by_cases hxy : x = c1 ∧ y = c2 <;> simp [Grid.addAt, hc, hf, Prod.ext_iff, eq_comm, hxy]
  · rename_i hc
    simp [hc]

theorem antLoop_forall (P : Globals K) (M : MathLib K) (dt : K) (draws : Nat → Draw K)
    (Q : Ant K → Prop) (hQ : ∀ d F a, Q (stepAnt P M dt d F a).1) :
    ∀ (l : List (Ant K)) (i : Nat) (F : Fields K), ∀ b ∈ (antLoop P M dt draws i l F).1, Q b := by
  intro l
  induction l with
  | nil => intro i F b hb; simp [antLoop] at hb
  | cons a rest ih =>
    intro i F b hb
    simp only [antLoop, List.mem_cons] at hb
    rcases hb with rfl | hb
    · exact hQ _ _ _
    · exact ih _ _ b hb

theorem antLoop_carryingFood (P : Globals K) (M : MathLib K) (dt : K) (draws : Nat → Draw K) :
    ∀ (l : List (Ant K)) (i : Nat) (F : Fields K),
      (antLoop P M dt draws i l F).1.map Ant.carryingFood =
        l.map (fun a => (proximityToggle P M a).carryingFood) := by
  intro l
  induction l with
  | nil => intro i F; simp [antLoop]
  | cons a rest ih =>
    intro i F
    simp only [antLoop, List.map_cons, ih, stepAnt_carryingFood]

theorem antLoop_toFood (P : Globals K) (M : MathLib K) (dt : K) (draws : Nat → Draw K)
    (x y : Fin GRID_SIZE) :
    ∀ (l : List (Ant K)) (i : Nat) (F : Fields K),
      (antLoop P M dt draws i l F).2.pheromoneToFood x y =
        F.pheromoneToFood x y +
          P.PHEROMONE_DEPOSIT * dt * (l.countP (depositsInto P M true (x, y)) : K) := by
  intro l
  induction l with
  | nil => intro i F; simp [antLoop]
  | cons a rest ih =>
    intro i F
    simp only [antLoop, ih, stepAnt_toFood, List.countP_cons]
    split_ifs <;> push_cast <;> ring

theorem antLoop_toHome (P : Globals K) (M : MathLib K) (dt : K) (draws : Nat → Draw K)
    (x y : Fin GRID_SIZE) :
    ∀ (l : List (Ant K)) (i : Nat) (F : Fields K),
      (antLoop P M dt draws i l F).2.pheromoneToHome x y =
        F.pheromoneToHome x y +
          P.PHEROMONE_DEPOSIT * dt * (l.countP (depositsInto P M false (x, y)) : K) := by
  intro l
  induction l with
  | nil => intro i F; simp [antLoop]
  | cons a rest ih =>
    intro i F
    simp only [antLoop, ih, stepAnt_toHome, List.countP_cons]
    split_ifs <;> push_cast <;> ring

theorem updateAnts_toFood (P : Globals K) (M : MathLib K) (dt : K) (draws : Nat → Draw K)
    (W : World K) (x y : Fin GRID_SIZE) :
    (updateAnts P M dt draws W).fields.pheromoneToFood x y =
      (W.fields.pheromoneToFood x y +
        P.PHEROMONE_DEPOSIT * dt * (W.ants.countP (depositsInto P M true (x, y)) : K)) *
          P.PHEROMONE_DECAY := by
  simp only [updateAnts, decay, antLoop_toFood]

theorem updateAnts_toHome (P : Globals K) (M : MathLib K) (dt : K) (draws : Nat → Draw K)
    (W : World K) (x y : Fin GRID_SIZE) :
    (updateAnts P M dt draws W).fields.pheromoneToHome x y =
      (W.fields.pheromoneToHome x y +
        P.PHEROMONE_DEPOSIT * dt * (W.ants.countP (depositsInto P M false (x, y)) : K)) *
          P.PHEROMONE_DECAY := by
  simp only [updateAnts, decay, antLoop_toHome]

theorem updateAnts_nonneg (P : Globals K) (M : MathLib K) (dt : K) (draws : Nat → Draw K)
    (W : World K) (hrate : 0 ≤ P.PHEROMONE_DEPOSIT) (hdt : 0 ≤ dt)
    (hdecay : 0 ≤ P.PHEROMONE_DECAY) (hW : W.fields.nonneg) :
    (updateAnts P M dt draws W).fields.nonneg := by
  intro x y
  rw [updateAnts_toFood, updateAnts_toHome]
  have h1 := (hW x y).1
  have h2 := (hW x y).2
  constructor <;> positivity

end Lemmas

/-! ## Facts about the real library functions -/

section Claims

variable {K : Type} [LinearOrderedField K]

/-- C1, as stated, fails on the code.  With the tunables of `initAnts` and an all-zero
reading (forward = left = right = 0, so forward ≥ left and forward ≥ right) and the draws
`randAngle = 0`, `randTurn = 9/10`, the code takes the last branch: the turn is
`9/10 * 1/10 = 9/100`, which is not `q * WANDER_STRENGTH` for any `q` in `[-1, 1]` and
exceeds `WANDER_STRENGTH = 2/25` in absolute value.  With forward = left = 1 > right = 0 the
turn is `SENSE_ANGLE = 1/2`. -/
theorem C1_counterexample :
    ((0 : ℚ) ≥ 0 ∧ (0 : ℚ) ≥ 0) ∧ (Draw.mk (0 : ℚ) (9 / 10)).inRange ∧
      turnAngle (defaultGlobals : Globals ℚ) ⟨0, 9 / 10⟩ 0 0 0 = 9 / 10 * (1 / 10) ∧
      (¬ ∃ q : ℚ, -1 ≤ q ∧ q ≤ 1 ∧
        turnAngle (defaultGlobals : Globals ℚ) ⟨0, 9 / 10⟩ 0 0 0 =
          q * (defaultGlobals : Globals ℚ).WANDER_STRENGTH) ∧
      ¬ (|turnAngle (defaultGlobals : Globals ℚ) ⟨0, 9 / 10⟩ 0 0 0| ≤
          (defaultGlobals : Globals ℚ).WANDER_STRENGTH) ∧
      ((1 : ℚ) ≥ 1 ∧ (1 : ℚ) ≥ 0) ∧
      turnAngle (defaultGlobals : Globals ℚ) ⟨0, 9 / 10⟩ 1 1 0 =
        (defaultGlobals : Globals ℚ).SENSE_ANGLE := by
  have ht : turnAngle (defaultGlobals : Globals ℚ) ⟨0, 9 / 10⟩ 0 0 0 = 9 / 10 * (1 / 10) := by
    norm_num [turnAngle]
  refine ⟨by norm_num, by norm_num [Draw.inRange], ht, ?_, ?_, by norm_num, ?_⟩
  · rintro ⟨q, -, hq1, hq⟩
    rw [ht] at hq
    simp only [defaultGlobals] at hq
    linarith
  · rw [ht]
    norm_num [defaultGlobals, abs_of_pos]
  · norm_num [turnAngle, defaultGlobals]

/-- C1, amended: when forward is strictly greater than both neighbours the straight branch
is taken: the turn is `randAngle * WANDER_STRENGTH` with `randAngle` in `[-1/2, 1/2)`, hence
within `[-1, 1]`, with no `SENSE_ANGLE` term and no `1/10` factor, and
`|turn| ≤ WANDER_STRENGTH`.  In every other case (forward ≤ left or forward ≤ right) the
straight branch is not taken and the turn is `SENSE_ANGLE + randAngle * WANDER_STRENGTH` if
left > right, `-SENSE_ANGLE + randAngle * WANDER_STRENGTH` if right > left, and
`randTurn * 1/10` if left = right.  In particular, on the ties allowed by `≥`:
forward = left > right turns by `SENSE_ANGLE + randAngle * WANDER_STRENGTH`,
forward = right > left by `-SENSE_ANGLE + randAngle * WANDER_STRENGTH`, and
forward = left = right by `randTurn * 1/10`. -/
theorem C1_turnAngle_strict (P : Globals K) (d : Draw K) (l f r : K) (hd : d.inRange)
    (hW : 0 ≤ P.WANDER_STRENGTH) :
    (f > l ∧ f > r →
        turnAngle P d l f r = d.randAngle * P.WANDER_STRENGTH ∧
          -1 ≤ d.randAngle ∧ d.randAngle ≤ 1 ∧ |turnAngle P d l f r| ≤ P.WANDER_STRENGTH) ∧
      (¬ (f > l ∧ f > r) →
        (l > r → turnAngle P d l f r = P.SENSE_ANGLE + d.randAngle * P.WANDER_STRENGTH) ∧
          (r > l → turnAngle P d l f r = -P.SENSE_ANGLE + d.randAngle * P.WANDER_STRENGTH) ∧
          (l = r → turnAngle P d l f r = d.randTurn * (1 / 10))) ∧
      (f = l ∧ f > r → turnAngle P d l f r = P.SENSE_ANGLE + d.randAngle * P.WANDER_STRENGTH) ∧
      (f = r ∧ f > l → turnAngle P d l f r = -P.SENSE_ANGLE + d.randAngle * P.WANDER_STRENGTH) ∧
      (f = l ∧ f = r → turnAngle P d l f r = d.randTurn * (1 / 10)) := by
  obtain ⟨h1, h2, -, -⟩ := hd
  refine ⟨?_, ?_, ?_, ?_, ?_⟩
  · rintro ⟨hl, hr⟩
    have ht : turnAngle P d l f r = d.randAngle * P.WANDER_STRENGTH := by
      simp [turnAngle, hl, hr]
    refine ⟨ht, by linarith, by linarith, ?_⟩
    rw [ht, abs_le]
    constructor <;> nlinarith
  · intro hn
    refine ⟨fun hlr => ?_, fun hrl => ?_, fun hlr => ?_⟩
    · simp only [turnAngle, if_neg hn, if_pos hlr]
    · have h3 : ¬ l > r := not_lt.mpr (le_of_lt hrl)
      simp only [turnAngle, if_neg hn, if_neg h3, if_pos hrl]
    · have h3 : ¬ l > r := by
        rw [hlr]
        exact lt_irrefl r
      have h4 : ¬ r > l := by
        rw [hlr]
        exact lt_irrefl r
      simp only [turnAngle, if_neg hn, if_neg h3, if_neg h4]
  · rintro ⟨rfl, hr⟩
    simp [turnAngle, hr]
  · rintro ⟨rfl, hl⟩
    have h3 : ¬ f < l := not_lt.mpr hl.le
    simp [turnAngle, hl, h3]
  · rintro ⟨rfl, rfl⟩
    simp [turnAngle]

/-- Witness of C1 (amended): tunables of `initAnts`; with forward = 1, left = right = 0 and
`randAngle = 1/4` the turn is `1/4 * WANDER_STRENGTH`; with forward = 0 < left = 1,
right = 0 the turn is `SENSE_ANGLE + 1/4 * WANDER_STRENGTH`. -/
theorem C1_turnAngle_strict_witness :
    (Draw.mk (1 / 4 : ℚ) (9 / 10)).inRange ∧ 0 ≤ (defaultGlobals : Globals ℚ).WANDER_STRENGTH ∧
      turnAngle (defaultGlobals : Globals ℚ) ⟨1 / 4, 9 / 10⟩ 0 1 0 =
        1 / 4 * (defaultGlobals : Globals ℚ).WANDER_STRENGTH ∧
      turnAngle (defaultGlobals : Globals ℚ) ⟨1 / 4, 9 / 10⟩ 1 0 0 =
        (defaultGlobals : Globals ℚ).SENSE_ANGLE +
          1 / 4 * (defaultGlobals : Globals ℚ).WANDER_STRENGTH :=
  ⟨by norm_num [Draw.inRange], by norm_num [defaultGlobals],
    ((C1_turnAngle_strict (defaultGlobals : Globals ℚ) ⟨1 / 4, 9 / 10⟩ 0 1 0
      (by norm_num [Draw.inRange]) (by norm_num [defaultGlobals])).1
        ⟨by norm_num, by norm_num⟩).1,
    ((C1_turnAngle_strict (defaultGlobals : Globals ℚ) ⟨1 / 4, 9 / 10⟩ 1 0 0
      (by norm_num [Draw.inRange]) (by norm_num [defaultGlobals])).2.1
        (by norm_num)).1 (by norm_num)⟩

/-! ## C2: the deposit of one agent -/

variable [FloorRing K]

/-- C2: processing one agent (`stepAnt`) whose pre-movement position passes the bounds test
at cell `c` adds exactly `PHEROMONE_DEPOSIT * dt` to cell `c` of `pheromoneToFood` when its
flag after the proximity test is true, and to cell `c` of `pheromoneToHome` when that flag is
false; every other cell of that grid and the whole other grid are unchanged; when the bounds
test fails both grids are unchanged. -/
theorem C2_deposit_step (P : Globals K) (M : MathLib K) (dt : K) (d : Draw K) (F : Fields K)
    (a : Ant K) :
    (∀ c : Fin GRID_SIZE × Fin GRID_SIZE, cellOfPos GRID_SIZE a.pos = some c →
      ((proximityToggle P M a).carryingFood = true →
        (stepAnt P M dt d F a).2.pheromoneToFood c.1 c.2 =
            F.pheromoneToFood c.1 c.2 + P.PHEROMONE_DEPOSIT * dt ∧
          (∀ x y, (x, y) ≠ c →
            (stepAnt P M dt d F a).2.pheromoneToFood x y = F.pheromoneToFood x y) ∧
          (stepAnt P M dt d F a).2.pheromoneToHome = F.pheromoneToHome) ∧
      ((proximityToggle P M a).carryingFood = false →
        (stepAnt P M dt d F a).2.pheromoneToHome c.1 c.2 =
            F.pheromoneToHome c.1 c.2 + P.PHEROMONE_DEPOSIT * dt ∧
          (∀ x y, (x, y) ≠ c →
            (stepAnt P M dt d F a).2.pheromoneToHome x y = F.pheromoneToHome x y) ∧
          (stepAnt P M dt d F a).2.pheromoneToFood = F.pheromoneToFood)) ∧
    (cellOfPos GRID_SIZE a.pos = none →
      (stepAnt P M dt d F a).2.pheromoneToFood = F.pheromoneToFood ∧
        (stepAnt P M dt d F a).2.pheromoneToHome = F.pheromoneToHome) := by
  refine ⟨fun c hc => ⟨fun hf => ⟨?_, ?_, ?_⟩, fun hf => ⟨?_, ?_, ?_⟩⟩, fun hc => ⟨?_, ?_⟩⟩
  · simp [stepAnt_toFood, depositsInto, hc, hf]
  · intro x y hxy
    have hne : ¬ (c = (x, y)) := fun h => hxy h.symm
    simp [stepAnt_toFood, depositsInto, hc, hf, hne]
  · funext x y
    simp [stepAnt_toHome, depositsInto, hc, hf]
  · simp [stepAnt_toHome, depositsInto, hc, hf]
  · intro x y hxy
    have hne : ¬ (c = (x, y)) := fun h => hxy h.symm
    simp [stepAnt_toHome, depositsInto, hc, hf, hne]
  · funext x y
    simp [stepAnt_toFood, depositsInto, hc, hf]
  · funext x y
    simp [stepAnt_toFood, depositsInto, hc]
  · funext x y
    simp [stepAnt_toHome, depositsInto, hc]

/-- Witness of C2: tunables of `initAnts`, `dt = 1/100`, a non-carrying agent standing on
the food source `(10, 10)` (cell `(96, 96)`): the proximity test makes it carrying and the
deposit `10 * 1/100` goes to cell `(96, 96)` of the to-food grid. -/
theorem C2_deposit_step_witness :
    cellOfPos GRID_SIZE (Ant.mk (⟨10, 10⟩ : Vec2 ℝ) ⟨1, 0⟩ false).pos = some (96, 96) ∧
      (proximityToggle defaultGlobals (MathLib.mk Real.cos Real.sin (fun y x => Complex.arg ⟨x, y⟩) Real.sqrt) ⟨⟨10, 10⟩, ⟨1, 0⟩, false⟩).carryingFood = true ∧
      (stepAnt defaultGlobals (MathLib.mk Real.cos Real.sin (fun y x => Complex.arg ⟨x, y⟩) Real.sqrt) (1 / 100) ⟨0, 0⟩ zeroFields
        ⟨⟨10, 10⟩, ⟨1, 0⟩, false⟩).2.pheromoneToFood 96 96 = 0 + 10 * (1 / 100) := by
  have hc : cellOfPos GRID_SIZE (Ant.mk (⟨10, 10⟩ : Vec2 ℝ) ⟨1, 0⟩ false).pos =
      some (96, 96) := by
    have h : gridCoord GRID_SIZE (10 : ℝ) = 96 := by norm_num [gridCoord, floatToInt]
    simp only [cellOfPos, h]
    rfl
  have hf : (proximityToggle defaultGlobals (MathLib.mk Real.cos Real.sin (fun y x => Complex.arg ⟨x, y⟩) Real.sqrt)
      ⟨⟨10, 10⟩, ⟨1, 0⟩, false⟩).carryingFood = true := by
    simp [proximityToggle, Vec2.length, Vec2.sub, defaultGlobals]
  exact ⟨hc, hf, (((C2_deposit_step defaultGlobals (MathLib.mk Real.cos Real.sin (fun y x => Complex.arg ⟨x, y⟩) Real.sqrt) (1 / 100) ⟨0, 0⟩ zeroFields
    ⟨⟨10, 10⟩, ⟨1, 0⟩, false⟩).1 (96, 96) hc).1 hf).1⟩

/-! ## C3: bounds containment -/

/-- C3: after `updateAnts(dt)` every agent's position satisfies `-20 ≤ pos.x ≤ 20` and
`-20 ≤ pos.y ≤ 20`, for every state before the tick, every `dt`, every setting of the
tunables and all random draws. -/
theorem C3_bounds_containment (P : Globals K) (M : MathLib K) (dt : K) (draws : Nat → Draw K)
    (W : World K) :
    ∀ a ∈ (updateAnts P M dt draws W).ants,
      -20 ≤ a.pos.x ∧ a.pos.x ≤ 20 ∧ -20 ≤ a.pos.y ∧ a.pos.y ≤ 20 := by
  intro a ha
  exact antLoop_forall P M dt draws
    (fun b => -20 ≤ b.pos.x ∧ b.pos.x ≤ 20 ∧ -20 ≤ b.pos.y ∧ b.pos.y ≤ 20)
    (fun d F b => reflect_bounds _) W.ants 0 W.fields a ha

/-- Witness of C3: tunables of `initAnts`, real library functions, all-zero grids,
`dt = 1/100`, one agent at the edge `(20, 0)` heading along `+x`. -/
theorem C3_bounds_containment_witness :
    (stepAnt defaultGlobals (MathLib.mk Real.cos Real.sin (fun y x => Complex.arg ⟨x, y⟩) Real.sqrt) (1 / 100) ⟨0, 0⟩ zeroFields ⟨⟨20, 0⟩, ⟨1, 0⟩, false⟩).1 ∈
        (updateAnts defaultGlobals (MathLib.mk Real.cos Real.sin (fun y x => Complex.arg ⟨x, y⟩) Real.sqrt) (1 / 100) (fun _ => ⟨0, 0⟩)
          ⟨[⟨⟨20, 0⟩, ⟨1, 0⟩, false⟩], zeroFields⟩).ants ∧
      -20 ≤ (stepAnt defaultGlobals (MathLib.mk Real.cos Real.sin (fun y x => Complex.arg ⟨x, y⟩) Real.sqrt) (1 / 100) ⟨0, 0⟩ zeroFields
        ⟨⟨20, 0⟩, ⟨1, 0⟩, false⟩).1.pos.x ∧
      (stepAnt defaultGlobals (MathLib.mk Real.cos Real.sin (fun y x => Complex.arg ⟨x, y⟩) Real.sqrt) (1 / 100) ⟨0, 0⟩ zeroFields
        ⟨⟨20, 0⟩, ⟨1, 0⟩, false⟩).1.pos.x ≤ 20 :=
  have hmem : (stepAnt defaultGlobals (MathLib.mk Real.cos Real.sin (fun y x => Complex.arg ⟨x, y⟩) Real.sqrt) (1 / 100) ⟨0, 0⟩ zeroFields
      ⟨⟨20, 0⟩, ⟨1, 0⟩, false⟩).1 ∈
        (updateAnts defaultGlobals (MathLib.mk Real.cos Real.sin (fun y x => Complex.arg ⟨x, y⟩) Real.sqrt) (1 / 100) (fun _ => ⟨0, 0⟩)
          ⟨[⟨⟨20, 0⟩, ⟨1, 0⟩, false⟩], zeroFields⟩).ants := by
    simp [updateAnts, antLoop]
  ⟨hmem, (C3_bounds_containment _ _ _ _ _ _ hmem).1, (C3_bounds_containment _ _ _ _ _ _ hmem).2.1⟩

/-! ## C5: the proximity state transition -/

/-- C5: the proximity test (`proximityToggle`, step 1 of the loop body).  A non-carrying
agent closer to the food than `DETECTION_RADIUS` becomes carrying and its velocity becomes
exactly the negation of the pre-tick velocity, `(-vel.x, -vel.y)`; a carrying agent closer to
home than `DETECTION_RADIUS` becomes non-carrying with its velocity negated in the same way;
in every other case the flag and the velocity are unchanged by this step; the position is
never changed by it.  No later step of the tick changes the flag: after `stepAnt`, and for
every agent after `updateAnts`, the flag is the one the proximity test produced, so each
agent toggles at most once per tick. -/
theorem C5_proximity_transition (P : Globals K) (M : MathLib K) (dt : K)
    (draws : Nat → Draw K) (a : Ant K) :
    (a.carryingFood = false ∧ (P.foodPos.sub a.pos).length M < P.DETECTION_RADIUS →
        (proximityToggle P M a).carryingFood = true ∧
          (proximityToggle P M a).vel.x = -a.vel.x ∧
          (proximityToggle P M a).vel.y = -a.vel.y) ∧
      (a.carryingFood = true ∧ (P.homePos.sub a.pos).length M < P.DETECTION_RADIUS →
        (proximityToggle P M a).carryingFood = false ∧
          (proximityToggle P M a).vel.x = -a.vel.x ∧
          (proximityToggle P M a).vel.y = -a.vel.y) ∧
      (¬ (a.carryingFood = false ∧ (P.foodPos.sub a.pos).length M < P.DETECTION_RADIUS) ∧
          ¬ (a.carryingFood = true ∧ (P.homePos.sub a.pos).length M < P.DETECTION_RADIUS) →
        (proximityToggle P M a).carryingFood = a.carryingFood ∧
          (proximityToggle P M a).vel = a.vel) ∧
      (proximityToggle P M a).pos = a.pos ∧
      (∀ (d : Draw K) (F : Fields K),
        (stepAnt P M dt d F a).1.carryingFood = (proximityToggle P M a).carryingFood) ∧
      (∀ W : World K, (updateAnts P M dt draws W).ants.map Ant.carryingFood =
        W.ants.map (fun b => (proximityToggle P M b).carryingFood)) := by
  refine ⟨?_, ?_, ?_, proximityToggle_pos P M a, ?_, ?_⟩
  · intro h
    simp [proximityToggle, h, Vec2.neg]
  · rintro ⟨h1, h2⟩
    simp [proximityToggle, h1, h2, Vec2.neg]
  · rintro ⟨h1, h2⟩
    rw [proximityToggle_eq_self P M a h1 h2]
    exact ⟨rfl, rfl⟩
  · intro d F
    exact stepAnt_carryingFood P M dt d F a
  · intro W
    exact antLoop_carryingFood P M dt draws W.ants 0 W.fields

/-- Witness of C5: tunables of `initAnts`; a non-carrying agent standing on the food source
`(10, 10)` with velocity `(3, -4)` becomes carrying with velocity `(-3, 4)`. -/
theorem C5_proximity_transition_witness :
    ((Ant.mk (⟨10, 10⟩ : Vec2 ℝ) ⟨3, -4⟩ false).carryingFood = false ∧
        ((defaultGlobals : Globals ℝ).foodPos.sub
          (Ant.mk (⟨10, 10⟩ : Vec2 ℝ) ⟨3, -4⟩ false).pos).length (MathLib.mk Real.cos Real.sin (fun y x => Complex.arg ⟨x, y⟩) Real.sqrt) <
            (defaultGlobals : Globals ℝ).DETECTION_RADIUS) ∧
      (proximityToggle defaultGlobals (MathLib.mk Real.cos Real.sin (fun y x => Complex.arg ⟨x, y⟩) Real.sqrt) ⟨⟨10, 10⟩, ⟨3, -4⟩, false⟩).carryingFood = true ∧
      (proximityToggle defaultGlobals (MathLib.mk Real.cos Real.sin (fun y x => Complex.arg ⟨x, y⟩) Real.sqrt) ⟨⟨10, 10⟩, ⟨3, -4⟩, false⟩).vel.x = -3 ∧
      (proximityToggle defaultGlobals (MathLib.mk Real.cos Real.sin (fun y x => Complex.arg ⟨x, y⟩) Real.sqrt) ⟨⟨10, 10⟩, ⟨3, -4⟩, false⟩).vel.y = 4 := by
  have h : (Ant.mk (⟨10, 10⟩ : Vec2 ℝ) ⟨3, -4⟩ false).carryingFood = false ∧
      ((defaultGlobals : Globals ℝ).foodPos.sub
        (Ant.mk (⟨10, 10⟩ : Vec2 ℝ) ⟨3, -4⟩ false).pos).length (MathLib.mk Real.cos Real.sin (fun y x => Complex.arg ⟨x, y⟩) Real.sqrt) <
          (defaultGlobals : Globals ℝ).DETECTION_RADIUS := by
    simp [Vec2.length, Vec2.sub, defaultGlobals]
  have hmain := (C5_proximity_transition defaultGlobals (MathLib.mk Real.cos Real.sin (fun y x => Complex.arg ⟨x, y⟩) Real.sqrt) (1 / 100) (fun _ => ⟨0, 0⟩)
    ⟨⟨10, 10⟩, ⟨3, -4⟩, false⟩).1 h
  refine ⟨h, hmain.1, hmain.2.1, ?_⟩
  rw [hmain.2.2]
  norm_num

/-! ## C6: one deposit followed by one decay -/

/-- C6: from all-zero grids and a single agent whose position passes the bounds test at cell
`c`, one `updateAnts(dt)` leaves `PHEROMONE_DEPOSIT * dt * PHEROMONE_DECAY` in cell `c` of the
grid the agent deposits into (to-food when its flag after the proximity test is true,
to-home otherwise) and `0` in every other cell of both grids, for every deposit rate, `dt`
and decay factor. -/
theorem C6_deposit_then_decay (P : Globals K) (M : MathLib K) (dt : K) (draws : Nat → Draw K)
    (a : Ant K) (c : Fin GRID_SIZE × Fin GRID_SIZE) (hc : cellOfPos GRID_SIZE a.pos = some c) :
    ((proximityToggle P M a).carryingFood = true →
        (updateAnts P M dt draws ⟨[a], zeroFields⟩).fields.pheromoneToFood c.1 c.2 =
            P.PHEROMONE_DEPOSIT * dt * P.PHEROMONE_DECAY ∧
          (∀ x y, (x, y) ≠ c →
            (updateAnts P M dt draws ⟨[a], zeroFields⟩).fields.pheromoneToFood x y = 0) ∧
          (∀ x y, (updateAnts P M dt draws ⟨[a], zeroFields⟩).fields.pheromoneToHome x y = 0)) ∧
      ((proximityToggle P M a).carryingFood = false →
        (updateAnts P M dt draws ⟨[a], zeroFields⟩).fields.pheromoneToHome c.1 c.2 =
            P.PHEROMONE_DEPOSIT * dt * P.PHEROMONE_DECAY ∧
          (∀ x y, (x, y) ≠ c →
            (updateAnts P M dt draws ⟨[a], zeroFields⟩).fields.pheromoneToHome x y = 0) ∧
          (∀ x y, (updateAnts P M dt draws ⟨[a], zeroFields⟩).fields.pheromoneToFood x y = 0)) := by
  refine ⟨fun hf => ⟨?_, ?_, ?_⟩, fun hf => ⟨?_, ?_, ?_⟩⟩
  · simp [updateAnts_toFood, depositsInto, zeroFields, hc, hf]
  · intro x y hxy
    have hne : ¬ (c = (x, y)) := fun h => hxy h.symm
    simp [updateAnts_toFood, depositsInto, zeroFields, hc, hf, hne]
  · intro x y
    simp [updateAnts_toHome, depositsInto, zeroFields, hc, hf]
  · simp [updateAnts_toHome, depositsInto, zeroFields, hc, hf]
  · intro x y hxy
    have hne : ¬ (c = (x, y)) := fun h => hxy h.symm
    simp [updateAnts_toHome, depositsInto, zeroFields, hc, hf, hne]
  · intro x y
    simp [updateAnts_toFood, depositsInto, zeroFields, hc, hf]

/-- Witness of C6: rate 10, `dt = 0.01`, decay 0.995 (tunables of `initAnts`), one
non-carrying agent standing on the food source `(10, 10)`, which maps to cell `(96, 96)`; it
becomes carrying and deposits into the to-food grid. -/
theorem C6_deposit_then_decay_witness :
    cellOfPos GRID_SIZE (Ant.mk (⟨10, 10⟩ : Vec2 ℝ) ⟨1, 0⟩ false).pos = some (96, 96) ∧
      (updateAnts defaultGlobals (MathLib.mk Real.cos Real.sin (fun y x => Complex.arg ⟨x, y⟩) Real.sqrt) (1 / 100) (fun _ => ⟨0, 0⟩)
        ⟨[⟨⟨10, 10⟩, ⟨1, 0⟩, false⟩], zeroFields⟩).fields.pheromoneToFood 96 96 =
          10 * (1 / 100) * (199 / 200) ∧
      (updateAnts defaultGlobals (MathLib.mk Real.cos Real.sin (fun y x => Complex.arg ⟨x, y⟩) Real.sqrt) (1 / 100) (fun _ => ⟨0, 0⟩)
        ⟨[⟨⟨10, 10⟩, ⟨1, 0⟩, false⟩], zeroFields⟩).fields.pheromoneToFood 0 0 = 0 ∧
      (updateAnts defaultGlobals (MathLib.mk Real.cos Real.sin (fun y x => Complex.arg ⟨x, y⟩) Real.sqrt) (1 / 100) (fun _ => ⟨0, 0⟩)
        ⟨[⟨⟨10, 10⟩, ⟨1, 0⟩, false⟩], zeroFields⟩).fields.pheromoneToHome 96 96 = 0 := by
  have hc : cellOfPos GRID_SIZE (Ant.mk (⟨10, 10⟩ : Vec2 ℝ) ⟨1, 0⟩ false).pos =
      some (96, 96) := by
    have h : gridCoord GRID_SIZE (10 : ℝ) = 96 := by norm_num [gridCoord, floatToInt]
    simp only [cellOfPos, h]
    rfl
  have hf : (proximityToggle defaultGlobals (MathLib.mk Real.cos Real.sin (fun y x => Complex.arg ⟨x, y⟩) Real.sqrt)
      ⟨⟨10, 10⟩, ⟨1, 0⟩, false⟩).carryingFood = true := by
    simp [proximityToggle, Vec2.length, Vec2.sub, defaultGlobals]
  have hmain := (C6_deposit_then_decay defaultGlobals (MathLib.mk Real.cos Real.sin (fun y x => Complex.arg ⟨x, y⟩) Real.sqrt) (1 / 100) (fun _ => ⟨0, 0⟩)
    ⟨⟨10, 10⟩, ⟨1, 0⟩, false⟩ (96, 96) hc).1 hf
  exact ⟨hc, hmain.1, hmain.2.1 0 0 (by decide), hmain.2.2 96 96⟩

/-! ## C7: non-negativity of the grids -/

/-- C7: if every cell of both grids is ≥ 0 before a tick, the deposit rate is ≥ 0, `dt > 0`
and the decay factor lies strictly between 0 and 1, then every cell of both grids is ≥ 0
after `updateAnts(dt)`, whatever the agents and the draws; hence, starting from the
zero-initialised grids, every cell is ≥ 0 after any number of such ticks. -/
theorem C7_nonnegativity (M : MathLib K) (ticks : List (Tick K))
    (hticks : ∀ t ∈ ticks, t.admissible) :
    (∀ (P : Globals K) (dt : K) (draws : Nat → Draw K) (W : World K),
        0 ≤ P.PHEROMONE_DEPOSIT → 0 < dt → 0 < P.PHEROMONE_DECAY → P.PHEROMONE_DECAY < 1 →
        W.fields.nonneg → (updateAnts P M dt draws W).fields.nonneg) ∧
      (∀ ants : List (Ant K), (runTicks M ticks ⟨ants, zeroFields⟩).fields.nonneg) := by
  constructor
  · intro P dt draws W hrate hdt hd0 _ hW
    exact updateAnts_nonneg P M dt draws W hrate hdt.le hd0.le hW
  · have key : ∀ (ts : List (Tick K)), (∀ t ∈ ts, t.admissible) →
        ∀ W : World K, W.fields.nonneg → (runTicks M ts W).fields.nonneg := by
      intro ts
      induction ts with
      | nil => intro _ W hW; exact hW
      | cons t ts ih =>
        intro hts W hW
        obtain ⟨h1, h2, h3, -⟩ := hts t (List.mem_cons_self _ _)
        exact ih (fun u hu => hts u (List.mem_cons_of_mem _ hu)) _
          (updateAnts_nonneg t.globals M t.dt t.draws W h1 h2.le h3.le hW)
    intro ants
    exact key ticks hticks _ (fun x y => by simp [zeroFields])

/-- Witness of C7: two frames with the tunables of `initAnts` and `dt = 1/100`, one agent,
starting from the zero-initialised grids. -/
theorem C7_nonnegativity_witness :
    (∀ t ∈ [Tick.mk (defaultGlobals : Globals ℝ) (1 / 100) (fun _ => ⟨0, 0⟩),
        Tick.mk (defaultGlobals : Globals ℝ) (1 / 100) (fun _ => ⟨0, 0⟩)], t.admissible) ∧
      (runTicks (MathLib.mk Real.cos Real.sin (fun y x => Complex.arg ⟨x, y⟩) Real.sqrt)
        [Tick.mk (defaultGlobals : Globals ℝ) (1 / 100) (fun _ => ⟨0, 0⟩),
          Tick.mk (defaultGlobals : Globals ℝ) (1 / 100) (fun _ => ⟨0, 0⟩)]
        ⟨[⟨⟨10, 10⟩, ⟨1, 0⟩, false⟩], zeroFields⟩).fields.nonneg :=
  have h : ∀ t ∈ [Tick.mk (defaultGlobals : Globals ℝ) (1 / 100) (fun _ => ⟨0, 0⟩),
      Tick.mk (defaultGlobals : Globals ℝ) (1 / 100) (fun _ => ⟨0, 0⟩)], t.admissible := by
    intro t ht
    simp only [List.mem_cons, List.mem_singleton, List.not_mem_nil, or_false, or_self] at ht
    subst ht
    norm_num [Tick.admissible, defaultGlobals]
  ⟨h, (C7_nonnegativity (MathLib.mk Real.cos Real.sin (fun y x => Complex.arg ⟨x, y⟩) Real.sqrt) _ h).2 _⟩

/-! ## C9: the velocity is a unit vector after the tick -/

/-- C9: provided the library functions satisfy `cos² + sin² = 1`, after `updateAnts(dt)`
every agent's velocity satisfies `vel.x² + vel.y² = 1`, for every state before the tick
(zero or non-unit velocities included), every `dt`, every setting of the tunables and all
draws; a reflection at the boundary only negates components and keeps the length. -/
theorem C9_heading_normalized (P : Globals K) (M : MathLib K) (dt : K) (draws : Nat → Draw K)
    (W : World K) (hM : ∀ t : K, M.cos t ^ 2 + M.sin t ^ 2 = 1) :
    ∀ a ∈ (updateAnts P M dt draws W).ants, a.vel.x ^ 2 + a.vel.y ^ 2 = 1 := by
  intro a ha
  refine antLoop_forall P M dt draws (fun b => b.vel.x ^ 2 + b.vel.y ^ 2 = 1)
    (fun d F b => ?_) W.ants 0 W.fields a ha
  show (reflect _).vel.x ^ 2 + (reflect _).vel.y ^ 2 = 1
  rw [reflect_vel_sq]
  exact hM _

/-- Witness of C9: the real `cos` and `sin`, tunables of `initAnts`, one agent at the edge
`(20, 0)` with the non-unit velocity `(3, 4)`. -/
theorem C9_heading_normalized_witness :
    (∀ t : ℝ, (MathLib.mk Real.cos Real.sin (fun y x => Complex.arg ⟨x, y⟩) Real.sqrt).cos t ^ 2 + (MathLib.mk Real.cos Real.sin (fun y x => Complex.arg ⟨x, y⟩) Real.sqrt).sin t ^ 2 = 1) ∧
      (stepAnt defaultGlobals (MathLib.mk Real.cos Real.sin (fun y x => Complex.arg ⟨x, y⟩) Real.sqrt) (1 / 100) ⟨0, 0⟩ zeroFields ⟨⟨20, 0⟩, ⟨3, 4⟩, false⟩).1 ∈
        (updateAnts defaultGlobals (MathLib.mk Real.cos Real.sin (fun y x => Complex.arg ⟨x, y⟩) Real.sqrt) (1 / 100) (fun _ => ⟨0, 0⟩)
          ⟨[⟨⟨20, 0⟩, ⟨3, 4⟩, false⟩], zeroFields⟩).ants ∧
      (stepAnt defaultGlobals (MathLib.mk Real.cos Real.sin (fun y x => Complex.arg ⟨x, y⟩) Real.sqrt) (1 / 100) ⟨0, 0⟩ zeroFields
          ⟨⟨20, 0⟩, ⟨3, 4⟩, false⟩).1.vel.x ^ 2 +
        (stepAnt defaultGlobals (MathLib.mk Real.cos Real.sin (fun y x => Complex.arg ⟨x, y⟩) Real.sqrt) (1 / 100) ⟨0, 0⟩ zeroFields
          ⟨⟨20, 0⟩, ⟨3, 4⟩, false⟩).1.vel.y ^ 2 = 1 :=
  have hM : ∀ t : ℝ, (MathLib.mk Real.cos Real.sin (fun y x => Complex.arg ⟨x, y⟩) Real.sqrt).cos t ^ 2 + (MathLib.mk Real.cos Real.sin (fun y x => Complex.arg ⟨x, y⟩) Real.sqrt).sin t ^ 2 = 1 := fun t => Real.cos_sq_add_sin_sq t
  have hmem : (stepAnt defaultGlobals (MathLib.mk Real.cos Real.sin (fun y x => Complex.arg ⟨x, y⟩) Real.sqrt) (1 / 100) ⟨0, 0⟩ zeroFields
      ⟨⟨20, 0⟩, ⟨3, 4⟩, false⟩).1 ∈
        (updateAnts defaultGlobals (MathLib.mk Real.cos Real.sin (fun y x => Complex.arg ⟨x, y⟩) Real.sqrt) (1 / 100) (fun _ => ⟨0, 0⟩)
          ⟨[⟨⟨20, 0⟩, ⟨3, 4⟩, false⟩], zeroFields⟩).ants := by
    simp [updateAnts, antLoop]
  ⟨hM, hmem, C9_heading_normalized _ _ _ _ _ hM _ hmem⟩

/-! ## C10: the grids do not depend on the processing order -/

/-- C10: after `updateAnts(dt)` each cell of each grid equals
`(old value + PHEROMONE_DEPOSIT * dt * k) * PHEROMONE_DECAY`, where `k` counts the agents
whose pre-movement position maps to that cell and whose flag after the proximity test
selects that grid.  Hence the grids after the tick are the same for a list of agents and
any permutation of it, whatever the draws used in the two runs (so they depend neither on
the processing order, nor on the draws, nor on the steering outcome). -/
theorem C10_order_independent (P : Globals K) (M : MathLib K) (dt : K)
    (draws1 draws2 : Nat → Draw K) (F : Fields K) (l1 l2 : List (Ant K)) (hperm : l1.Perm l2) :
    (updateAnts P M dt draws1 ⟨l1, F⟩).fields = (updateAnts P M dt draws2 ⟨l2, F⟩).fields ∧
      ∀ x y,
        (updateAnts P M dt draws1 ⟨l1, F⟩).fields.pheromoneToFood x y =
            (F.pheromoneToFood x y +
              P.PHEROMONE_DEPOSIT * dt * (l1.countP (depositsInto P M true (x, y)) : K)) *
                P.PHEROMONE_DECAY ∧
          (updateAnts P M dt draws1 ⟨l1, F⟩).fields.pheromoneToHome x y =
            (F.pheromoneToHome x y +
              P.PHEROMONE_DEPOSIT * dt * (l1.countP (depositsInto P M false (x, y)) : K)) *
                P.PHEROMONE_DECAY := by
  constructor
  · have hF : ∀ G H : Fields K, G.pheromoneToFood = H.pheromoneToFood →
        G.pheromoneToHome = H.pheromoneToHome → G = H := by
      intro G H h1 h2
      cases G; cases H
      simp only at h1 h2
      rw [h1, h2]
    apply hF
    · funext x y
      rw [updateAnts_toFood, updateAnts_toFood, hperm.countP_eq]
    · funext x y
      rw [updateAnts_toHome, updateAnts_toHome, hperm.countP_eq]
  · intro x y
    exact ⟨updateAnts_toFood _ _ _ _ _ _ _, updateAnts_toHome _ _ _ _ _ _ _⟩

/-- Witness of C10: two agents (one on the food source, one at home) processed in the two
possible orders, with different draws, from the zero-initialised grids. -/
theorem C10_order_independent_witness :
    [Ant.mk (⟨10, 10⟩ : Vec2 ℝ) ⟨1, 0⟩ false, Ant.mk ⟨-10, 0⟩ ⟨0, 1⟩ false].Perm
        [Ant.mk ⟨-10, 0⟩ ⟨0, 1⟩ false, Ant.mk (⟨10, 10⟩ : Vec2 ℝ) ⟨1, 0⟩ false] ∧
      (updateAnts defaultGlobals (MathLib.mk Real.cos Real.sin (fun y x => Complex.arg ⟨x, y⟩) Real.sqrt) (1 / 100) (fun _ => ⟨0, 0⟩)
        ⟨[⟨⟨10, 10⟩, ⟨1, 0⟩, false⟩, ⟨⟨-10, 0⟩, ⟨0, 1⟩, false⟩], zeroFields⟩).fields =
      (updateAnts defaultGlobals (MathLib.mk Real.cos Real.sin (fun y x => Complex.arg ⟨x, y⟩) Real.sqrt) (1 / 100) (fun _ => ⟨1 / 4, 1 / 2⟩)
        ⟨[⟨⟨-10, 0⟩, ⟨0, 1⟩, false⟩, ⟨⟨10, 10⟩, ⟨1, 0⟩, false⟩], zeroFields⟩).fields :=
  ⟨List.Perm.swap _ _ _,
    (C10_order_independent defaultGlobals (MathLib.mk Real.cos Real.sin (fun y x => Complex.arg ⟨x, y⟩) Real.sqrt) (1 / 100) (fun _ => ⟨0, 0⟩)
      (fun _ => ⟨1 / 4, 1 / 2⟩) zeroFields _ _ (List.Perm.swap _ _ _)).1⟩

/-! ## C8: reflection at the edge `x = +L` -/

/-- C4: the code at a probe just below `-L`.  Tunables of `initAnts`; a non-carrying agent
at `(-17.75, 0)` probing in direction `(-1, 0)` with `SENSE_DISTANCE = 2.5`: the probe is
`(-20.25, 0)`, left of the world (`-20.25 < -20`).  The specification's cell is
`floor(-0.8) = -1`, outside `[0, GRID_SIZE)`, so the sample should be `0`; the code's cast
truncates `-0.8` to `0`, the bounds test passes, and both the lambda and the free function
return the value stored in cell `(0, 64)` of the to-food grid, here `7`. -/
theorem C4_sample_below_edge :
    ((⟨-71 / 4, 0⟩ : Vec2 ℚ).add
        ((⟨-1, 0⟩ : Vec2 ℚ).scale (defaultGlobals : Globals ℚ).SENSE_DISTANCE)) = ⟨-81 / 4, 0⟩ ∧
      (-81 / 4 : ℚ) < -20 ∧
      specCoord GRID_SIZE (-81 / 4 : ℚ) = -1 ∧
      cellAt GRID_SIZE (specCoord GRID_SIZE (-81 / 4 : ℚ)) (specCoord GRID_SIZE (0 : ℚ)) = none ∧
      gridCoord GRID_SIZE (-81 / 4 : ℚ) = 0 ∧
      sampleLambda (defaultGlobals : Globals ℚ)
        ⟨fun x y => if x = 0 ∧ y = 64 then 7 else 0, fun _ _ => 0⟩
        ⟨⟨-71 / 4, 0⟩, ⟨-1, 0⟩, false⟩ ⟨-1, 0⟩ = 7 ∧
      samplePheromone GRID_SIZE ⟨-1, 0⟩ (⟨⟨-71 / 4, 0⟩, ⟨-1, 0⟩, false⟩ : Ant ℚ)
        (fun x y => if x = 0 ∧ y = 64 then 7 else 0) (fun _ _ => 0) (5 / 2) = 7 := by
  have hp : ((⟨-71 / 4, 0⟩ : Vec2 ℚ).add ((⟨-1, 0⟩ : Vec2 ℚ).scale (5 / 2))) = ⟨-81 / 4, 0⟩ := by
    simp only [Vec2.add, Vec2.scale]
    norm_num
  have hx : gridCoord GRID_SIZE (-81 / 4 : ℚ) = 0 := by
    have h : ((-81 / 4 : ℚ) + 20) / 40 * ((GRID_SIZE : ℕ) : ℚ) = -(4 / 5) := by norm_num
    rw [gridCoord, h, floatToInt]
    norm_num [Int.ceil_eq_iff]
  have hy : gridCoord GRID_SIZE (0 : ℚ) = 64 := by
    norm_num [gridCoord, floatToInt]
  have hs : specCoord GRID_SIZE (-81 / 4 : ℚ) = -1 := by
    have h : ((-81 / 4 : ℚ) + 20) / (2 * 20) * ((GRID_SIZE : ℕ) : ℚ) = -(4 / 5) := by norm_num
    rw [specCoord, h]
    norm_num [Int.floor_eq_iff]
  have hcell : cellAt GRID_SIZE 0 64 = some (0, 64) := rfl
  refine ⟨hp, by norm_num, hs, ?_, hx, ?_, ?_⟩
  · rw [hs]
    simp [cellAt]
  · simp only [sampleLambda, defaultGlobals, hp, hx, hy, hcell]
    simp
  · simp only [samplePheromone, hp, hx, hy, hcell]
    simp

end Claims

end AntSim
